import Mathlib

/-!
Verification of the two rendering components of this repository fragment:
the EnvironmentRenderingPass (source/environmentrenderingpass.ts) and the
EyeTrackingRenderer demo (demos/eye-tracking/eyetracking.ts).

The embedding is shallow: the mutable fields of each class become a Lean
structure, and each method becomes a pure function from that state to a
trace of the GL side effects it performs, with failed runtime assertions
modelled as Except.error carrying the assertion message. The translation
follows the TypeScript source line by line.
-/

namespace WebglOperate

/-- Runtime kind of a texture object: the TypeScript classes Texture2D and
TextureCube, distinguished at runtime by instanceof checks. -/
inductive TextureKind
  | tex2D
  | texCube
deriving DecidableEq, Repr

/-- A texture handle: an identity plus its runtime class. -/
structure Texture where
  id : Nat
  kind : TextureKind
deriving DecidableEq, Repr

/-- The exported enum EnvironmentTextureType with members
CubeMap = 0, EquirectangularMap = 1, SphereMap = 2, PolarMap = 3. -/
inductive EnvironmentTextureType
  | CubeMap
  | EquirectangularMap
  | SphereMap
  | PolarMap
deriving DecidableEq, Repr

/-- The camera, reduced to the one datum frame() reads from it:
the inverse view-projection matrix, abstracted to an identifier. -/
structure Camera where
  viewProjectionInverse : Nat
deriving DecidableEq, Repr

/-- The four shader programs the pass owns, one per projection type. -/
inductive ProgramId
  | cubeMap
  | equiMap
  | sphereMap
  | polarMap
deriving DecidableEq, Repr

/-- The mutable configuration fields of EnvironmentRenderingPass. The field
environmenTextureType keeps the spelling of the source. It is declared
non-optional in TypeScript but the constructor never assigns it, so at
runtime it holds undefined until the setter runs; hence all four fields are
Option here. -/
structure EnvironmentRenderingPass where
  environmentTexture : Option Texture
  environmentTexture2 : Option Texture
  environmenTextureType : Option EnvironmentTextureType
  camera : Option Camera
deriving DecidableEq, Repr

/-- GL side effects performed by frame(), in order. -/
inductive GLEvent
  | bindTexture : Texture → Nat → GLEvent
  | bindProgram : ProgramId → GLEvent
  | uniformMatrix4fv : ProgramId → String → Bool → Nat → GLEvent
  | bindTriangle : GLEvent
  | drawTriangle : GLEvent
  | unbindProgram : ProgramId → GLEvent
deriving DecidableEq, Repr

namespace EnvironmentRenderingPass

/-- The tail of frame() shared by every dispatch branch: after the selected
program and the texture binds, the code binds the program, uploads the
inverse view-projection matrix uniform, binds and draws the NDC filling
triangle once, and unbinds the program. -/
def frameTail (camera : Camera) (program : ProgramId) (binds : List GLEvent) :
    Except String (List GLEvent) :=
  Except.ok (binds ++
    [GLEvent.bindProgram program,
     GLEvent.uniformMatrix4fv program "u_viewProjectionInverse" false
       camera.viewProjectionInverse,
     GLEvent.bindTriangle,
     GLEvent.drawTriangle,
     GLEvent.unbindProgram program])

/-- frame() from the source, lines 126 to 164. The two leading asserts
check the camera and the primary texture; the if-else chain compares the
type field against EquirectangularMap, SphereMap, CubeMap and PolarMap in
that order, asserting the texture kinds each branch requires and binding
texture unit 0 (and unit 1 for PolarMap); a value matching no branch
(in particular the never-assigned undefined) leaves the initial program
choice, the cube map program, and binds nothing. -/
def frame (p : EnvironmentRenderingPass) : Except String (List GLEvent) :=
  match p.camera with
  | none => Except.error "Camera is undefined in environment rendering pass."
  | some camera =>
    match p.environmentTexture with
    | none =>
      Except.error "Environment texture is undefined in environment rendering pass."
    | some texture =>
      if p.environmenTextureType = some EnvironmentTextureType.EquirectangularMap then
        if texture.kind = TextureKind.tex2D then
          frameTail camera ProgramId.equiMap [GLEvent.bindTexture texture 0]
        else
          Except.error "Input texture expected to be Texture2D for equirectangular mapping."
      else if p.environmenTextureType = some EnvironmentTextureType.SphereMap then
        if texture.kind = TextureKind.tex2D then
          frameTail camera ProgramId.sphereMap [GLEvent.bindTexture texture 0]
        else
          Except.error "Input texture expected to be Texture2D for sphere mapping."
      else if p.environmenTextureType = some EnvironmentTextureType.CubeMap then
        if texture.kind = TextureKind.texCube then
          frameTail camera ProgramId.cubeMap [GLEvent.bindTexture texture 0]
        else
          Except.error "Input texture expected to be a TextureCube for cube mapping."
      else if p.environmenTextureType = some EnvironmentTextureType.PolarMap then
        match p.environmentTexture2 with
        | none => Except.error "Two input textures expected for polar mapping."
        | some texture2 =>
          if texture.kind = TextureKind.tex2D then
            if texture2.kind = TextureKind.tex2D then
              frameTail camera ProgramId.polarMap
                [GLEvent.bindTexture texture 0, GLEvent.bindTexture texture2 1]
            else
              Except.error "Input texture expected to be a Texture2D for polar mapping."
          else
            Except.error "Input texture expected to be a Texture2D for polar mapping."
      else
        frameTail camera ProgramId.cubeMap []

/-- Setter environmentTextureType: assigns the field, nothing else. -/
def setEnvironmentTextureType (p : EnvironmentRenderingPass)
    (type : EnvironmentTextureType) : EnvironmentRenderingPass :=
  { p with environmenTextureType := some type }

/-- Setter environmentTexture: assigns the field, nothing else. The TypeScript
parameter type is the union Texture2D or TextureCube. -/
def setEnvironmentTexture (p : EnvironmentRenderingPass)
    (texture : Texture) : EnvironmentRenderingPass :=
  { p with environmentTexture := some texture }

/-- Setter environmentTexture2: assigns the field, nothing else. The static
TypeScript type is Texture2D, but no runtime check is performed, so the
embedding accepts any texture value. -/
def setEnvironmentTexture2 (p : EnvironmentRenderingPass)
    (texture : Texture) : EnvironmentRenderingPass :=
  { p with environmentTexture2 := some texture }

/-- Setter camera: assigns the field, nothing else. -/
def setCamera (p : EnvironmentRenderingPass) (camera : Camera) :
    EnvironmentRenderingPass :=
  { p with camera := some camera }

end EnvironmentRenderingPass

/-- Side effects performed by initialize(), in order. -/
inductive InitEvent
  | initTriangle : InitEvent
  | initEmptyTexture : InitEvent
  | initEmptyCubemap : InitEvent
  | vertShaderInit : InitEvent
  | fragShaderInit : InitEvent
  | shaderReplace : String → String → InitEvent
  | shaderCompile : String → InitEvent
  | programInit : ProgramId → InitEvent
  | programAttribute : ProgramId → String → InitEvent
  | programLink : ProgramId → InitEvent
  | programBind : ProgramId → InitEvent
  | uniform1i : ProgramId → String → Nat → InitEvent
  | uniform1iv : ProgramId → String → List Nat → InitEvent
  | programUnbind : ProgramId → InitEvent
deriving DecidableEq, Repr

/-- Modelled from the spec: the outcome of the toolkit steps that can fail
during initialize(). The Shader and Program classes are part of this
repository but not under src; the spec only says that compilation and link
failures are signaled by the underlying toolkit itself. Each field records
whether the corresponding compile or link step succeeds; a failing step
surfaces through the toolkit (modelled as Except.error), never through a
boolean inspected by initialize(). -/
structure ShaderToolkit where
  vertCompiles : Bool
  fragCompiles : String → Bool
  links : ProgramId → Bool

namespace EnvironmentRenderingPass

/-- One projection variant of initialize(): replace the PROJECTION_TYPE
marker in the fragment source, recompile the fragment shader, initialize
the program with both shaders (without linking), set the vertex attribute,
link, bind, upload the sampler uniform(s), unbind. A failed compile or link
surfaces through the toolkit. -/
def initializeVariant (tk : ShaderToolkit) (variant : String) (program : ProgramId)
    (samplerUniforms : List InitEvent) : Except String (List InitEvent) :=
  if tk.fragCompiles variant then
    if tk.links program then
      Except.ok
        ([InitEvent.shaderReplace "PROJECTION_TYPE" variant,
          InitEvent.shaderCompile variant,
          InitEvent.programInit program,
          InitEvent.programAttribute program "a_vertex",
          InitEvent.programLink program,
          InitEvent.programBind program] ++
         samplerUniforms ++ [InitEvent.programUnbind program])
    else
      Except.error "Program link failed."
  else
    Except.error "Shader compilation failed."

/-- initialize() from the source, lines 52 to 112: initializes the NDC
triangle, the one-pixel empty 2D texture and the one-pixel empty cube map,
creates the shared vertex and fragment shaders (the vertex shader compiles
at once, the fragment shader defers compilation), specializes and links the
four programs, and ends with the statement return true, its only return. -/
def initializePass (tk : ShaderToolkit) : Except String (List InitEvent × Bool) :=
  let setup := [InitEvent.initTriangle, InitEvent.initEmptyTexture,
    InitEvent.initEmptyCubemap]
  if !tk.vertCompiles then
    Except.error "Shader compilation failed."
  else
    let vertFrag := [InitEvent.vertShaderInit, InitEvent.fragShaderInit]
    match initializeVariant tk "CUBE_MAP" ProgramId.cubeMap
        [InitEvent.uniform1i ProgramId.cubeMap "u_cubemap" 0] with
    | Except.error e => Except.error e
    | Except.ok cube =>
      match initializeVariant tk "EQUI_MAP" ProgramId.equiMap
          [InitEvent.uniform1i ProgramId.equiMap "u_equirectmap" 0] with
      | Except.error e => Except.error e
      | Except.ok equi =>
        match initializeVariant tk "SPHERE_MAP" ProgramId.sphereMap
            [InitEvent.uniform1i ProgramId.sphereMap "u_spheremap" 0] with
        | Except.error e => Except.error e
        | Except.ok sphere =>
          match initializeVariant tk "POLAR_MAP" ProgramId.polarMap
              [InitEvent.uniform1iv ProgramId.polarMap "u_polarmap" [0, 1]] with
          | Except.error e => Except.error e
          | Except.ok polar =>
            Except.ok (setup ++ vertFrag ++ cube ++ equi ++ sphere ++ polar, true)

/-- The external resources EnvironmentRenderingPass owns: the four programs,
the NDC filling triangle and the two placeholder textures. -/
inductive PassResource
  | program : ProgramId → PassResource
  | ndcTriangle : PassResource
  | emptyTexture : PassResource
  | emptyCubemap : PassResource
deriving DecidableEq, Repr

/-- uninitialize() from the source, lines 114 to 120: it calls the
uninitialize method of exactly the four programs, in this order, and
touches nothing else. -/
def uninitialize : List PassResource :=
  [PassResource.program ProgramId.cubeMap,
   PassResource.program ProgramId.equiMap,
   PassResource.program ProgramId.sphereMap,
   PassResource.program ProgramId.polarMap]

/-- The resource a given initialize() event brings into an initialized
state, if any. -/
def initializedResource : InitEvent → Option PassResource
  | InitEvent.initTriangle => some PassResource.ndcTriangle
  | InitEvent.initEmptyTexture => some PassResource.emptyTexture
  | InitEvent.initEmptyCubemap => some PassResource.emptyCubemap
  | InitEvent.programInit program => some (PassResource.program program)
  | _ => none

end EnvironmentRenderingPass

/-! Eye-tracking demo renderer, demos/eye-tracking/eyetracking.ts. -/

/-- GL capabilities toggled by onFrame(). -/
inductive GLCapability
  | cullFace
  | depthTest
deriving DecidableEq, Repr

/-- GL side effects performed by onFrame(), in order. -/
inductive DemoGLEvent
  | bindDefaultFBO : DemoGLEvent
  | clearFBO : Bool → Bool → DemoGLEvent
  | viewport : Nat → Nat → DemoGLEvent
  | enable : GLCapability → DemoGLEvent
  | cullFaceBack : DemoGLEvent
  | disable : GLCapability → DemoGLEvent
  | bindProgram : DemoGLEvent
  | uniformViewProjection : Nat → DemoGLEvent
  | bindCuboid : DemoGLEvent
  | drawCuboid : DemoGLEvent
  | unbindCuboid : DemoGLEvent
  | unbindProgram : DemoGLEvent
deriving DecidableEq, Repr

namespace EyeTrackingRenderer

/-- onFrame() from the source, lines 65 to 88: binds the default
framebuffer, clears color and depth, sets the viewport, enables back-face
culling and the depth test, binds the program, uploads the view-projection
matrix, binds, draws and unbinds the cuboid, unbinds the program, sets the
cull face to back again and disables face culling. The depth test is never
disabled. -/
def onFrame (frameW frameH viewProjection : Nat) : List DemoGLEvent :=
  [DemoGLEvent.bindDefaultFBO,
   DemoGLEvent.clearFBO true true,
   DemoGLEvent.viewport frameW frameH,
   DemoGLEvent.enable GLCapability.cullFace,
   DemoGLEvent.cullFaceBack,
   DemoGLEvent.enable GLCapability.depthTest,
   DemoGLEvent.bindProgram,
   DemoGLEvent.uniformViewProjection viewProjection,
   DemoGLEvent.bindCuboid,
   DemoGLEvent.drawCuboid,
   DemoGLEvent.unbindCuboid,
   DemoGLEvent.unbindProgram,
   DemoGLEvent.cullFaceBack,
   DemoGLEvent.disable GLCapability.cullFace]

/-- Modelled from the spec: the status values of the eye-tracking stream
the status callback distinguishes. The EyeTrackingStatusMessage enum lives
in this repository outside src; the demo switches on NewServerMessage and
BinaryMessageTooSmall and treats every other value through the default
case, collapsed here into the constructor other. -/
inductive EyeTrackingStatusMessage
  | NewServerMessage
  | BinaryMessageTooSmall
  | other
deriving DecidableEq, Repr

/-- Modelled from the spec: the externally implemented eye-tracking data
stream client, reduced to the three members the two registered callbacks
read: the current data (already rendered to a string), the status message
and the latest server message. -/
structure EyeTrackerDataStream where
  eyeTrackingData : String
  statusMessage : EyeTrackingStatusMessage
  serverMessage : String
deriving DecidableEq, Repr

/-- The mutable fields of EyeTrackingRenderer, each abstracted to an
identifier; the callbacks registered in onInitialize touch none of them. -/
structure RendererState where
  cameraId : Nat
  navigationId : Nat
  cuboidId : Nat
  programId : Nat
  uViewProjection : Nat
  defaultFBOId : Nat
deriving DecidableEq, Repr

/-- The data-update callback registered in onInitialize (lines 100 to 102):
logs the string form of the current eye-tracking data and changes no
renderer state. -/
def onDataUpdateCallback (r : RendererState) (s : EyeTrackerDataStream) :
    RendererState × List String :=
  (r, [s.eyeTrackingData])

/-- The status-update callback registered in onInitialize (lines 104 to
116): switches on the status message and logs one line per case; it changes
no renderer state. -/
def onStatusUpdateCallback (r : RendererState) (s : EyeTrackerDataStream) :
    RendererState × List String :=
  match s.statusMessage with
  | EyeTrackingStatusMessage.NewServerMessage => (r, [s.serverMessage])
  | EyeTrackingStatusMessage.BinaryMessageTooSmall =>
      (r, ["Received stream from server with not enough bytes."])
  | EyeTrackingStatusMessage.other =>
      (r, ["Eye-Tracking data stream in invalid state."])

end EyeTrackingRenderer

/-- A toolkit in which every compile and link step succeeds. -/
def allOkToolkit : ShaderToolkit :=
  ShaderToolkit.mk true (fun _ => true) (fun _ => true)

/-- The event trace of a fully successful initialize() run. -/
def allOkInitEvents : List InitEvent :=
  (((EnvironmentRenderingPass.initializePass allOkToolkit).toOption).map Prod.fst).getD []

/-! Theorems for the claims. -/

/-- C1: for each of the four EnvironmentTextureType values, frame() with a
camera and a matching primary texture (plus a 2D secondary texture for
PolarMap) selects exactly the documented program, binds the primary
texture to unit 0, binds the secondary texture to unit 1 only in the
PolarMap case, then binds the inverse view-projection matrix uniform and
issues exactly one draw of the full-screen triangle. The secondary texture
slot t2 is arbitrary in the three single-texture cases and is not bound
there. -/
theorem frame_dispatch_correct (cam : Camera) (i j : Nat) (t2 : Option Texture) :
    (EnvironmentRenderingPass.frame
        ⟨some ⟨i, TextureKind.texCube⟩, t2, some EnvironmentTextureType.CubeMap, some cam⟩ =
      Except.ok
        [GLEvent.bindTexture ⟨i, TextureKind.texCube⟩ 0,
         GLEvent.bindProgram ProgramId.cubeMap,
         GLEvent.uniformMatrix4fv ProgramId.cubeMap "u_viewProjectionInverse" false
           cam.viewProjectionInverse,
         GLEvent.bindTriangle, GLEvent.drawTriangle,
         GLEvent.unbindProgram ProgramId.cubeMap]) ∧
    (EnvironmentRenderingPass.frame
        ⟨some ⟨i, TextureKind.tex2D⟩, t2, some EnvironmentTextureType.EquirectangularMap,
          some cam⟩ =
      Except.ok
        [GLEvent.bindTexture ⟨i, TextureKind.tex2D⟩ 0,
         GLEvent.bindProgram ProgramId.equiMap,
         GLEvent.uniformMatrix4fv ProgramId.equiMap "u_viewProjectionInverse" false
           cam.viewProjectionInverse,
         GLEvent.bindTriangle, GLEvent.drawTriangle,
         GLEvent.unbindProgram ProgramId.equiMap]) ∧
    (EnvironmentRenderingPass.frame
        ⟨some ⟨i, TextureKind.tex2D⟩, t2, some EnvironmentTextureType.SphereMap, some cam⟩ =
      Except.ok
        [GLEvent.bindTexture ⟨i, TextureKind.tex2D⟩ 0,
         GLEvent.bindProgram ProgramId.sphereMap,
         GLEvent.uniformMatrix4fv ProgramId.sphereMap "u_viewProjectionInverse" false
           cam.viewProjectionInverse,
         GLEvent.bindTriangle, GLEvent.drawTriangle,
         GLEvent.unbindProgram ProgramId.sphereMap]) ∧
    (EnvironmentRenderingPass.frame
        ⟨some ⟨i, TextureKind.tex2D⟩, some ⟨j, TextureKind.tex2D⟩,
          some EnvironmentTextureType.PolarMap, some cam⟩ =
      Except.ok
        [GLEvent.bindTexture ⟨i, TextureKind.tex2D⟩ 0,
         GLEvent.bindTexture ⟨j, TextureKind.tex2D⟩ 1,
         GLEvent.bindProgram ProgramId.polarMap,
         GLEvent.uniformMatrix4fv ProgramId.polarMap "u_viewProjectionInverse" false
           cam.viewProjectionInverse,
         GLEvent.bindTriangle, GLEvent.drawTriangle,
         GLEvent.unbindProgram ProgramId.polarMap]) :=
  ⟨rfl, rfl, rfl, rfl⟩

/-- Helper: initializePass can only return the boolean true when it
returns at all, because its single Except.ok site carries true. -/
theorem initializePass_ok_inv (tk : ShaderToolkit) (events : List InitEvent) (b : Bool)
    (h : EnvironmentRenderingPass.initializePass tk = Except.ok (events, b)) :
    b = true := by
  unfold EnvironmentRenderingPass.initializePass at h
  split at h
  · cases h
  · split at h
    · cases h
    · split at h
      · cases h
      · split at h
        · cases h
        · split at h
          · cases h
          · simp only [Except.ok.injEq, Prod.mk.injEq] at h
            exact h.2.symm

/-- C2 counterexample: there is no execution of initialize() at all, and in
particular none in which a compilation or link step fails, that returns the
boolean false: the method body ends in an unconditional return true, so a
failing toolkit step surfaces through the toolkit, never as a false return
value. -/
theorem initializePass_never_returns_false :
    ¬ ∃ (tk : ShaderToolkit) (events : List InitEvent),
        EnvironmentRenderingPass.initializePass tk = Except.ok (events, false) := by
  rintro ⟨tk, events, h⟩
  exact Bool.false_ne_true (initializePass_ok_inv tk events false h)

/-- C2 amended: initialize() never surfaces a compile or link failure as a
false return value; on every execution it either completes and returns
true, or a failing compile or link step aborts the run through the
underlying toolkit and no boolean is returned at all. -/
theorem initializePass_true_or_toolkit_error (tk : ShaderToolkit) :
    (∃ msg, EnvironmentRenderingPass.initializePass tk = Except.error msg) ∨
    (∃ events, EnvironmentRenderingPass.initializePass tk = Except.ok (events, true)) := by
  unfold EnvironmentRenderingPass.initializePass
  split
  · exact Or.inl ⟨_, rfl⟩
  · split
    · exact Or.inl ⟨_, rfl⟩
    · split
      · exact Or.inl ⟨_, rfl⟩
      · split
        · exact Or.inl ⟨_, rfl⟩
        · split
          · exact Or.inl ⟨_, rfl⟩
          · exact Or.inr ⟨_, rfl⟩

/-- C3 counterexample: onFrame() enables the depth test but never disables
or restores it before returning, so not every enable it performs is matched
by a corresponding disable. -/
theorem onFrame_depth_test_not_restored :
    (EyeTrackingRenderer.onFrame 800 600 0).count
      (DemoGLEvent.enable GLCapability.depthTest) = 1 ∧
    (EyeTrackingRenderer.onFrame 800 600 0).count
      (DemoGLEvent.disable GLCapability.depthTest) = 0 := by
  decide

/-- C3 amended: every call to onFrame() clears the color and depth buffers,
enables back-face culling and the depth test, binds the one program, draws
the one cuboid, and before returning disables the face culling it enabled,
but leaves the depth test enabled. -/
theorem onFrame_trace_spec (w h vp : Nat) :
    EyeTrackingRenderer.onFrame w h vp =
      [DemoGLEvent.bindDefaultFBO,
       DemoGLEvent.clearFBO true true,
       DemoGLEvent.viewport w h,
       DemoGLEvent.enable GLCapability.cullFace,
       DemoGLEvent.cullFaceBack,
       DemoGLEvent.enable GLCapability.depthTest,
       DemoGLEvent.bindProgram,
       DemoGLEvent.uniformViewProjection vp,
       DemoGLEvent.bindCuboid,
       DemoGLEvent.drawCuboid,
       DemoGLEvent.unbindCuboid,
       DemoGLEvent.unbindProgram,
       DemoGLEvent.cullFaceBack,
       DemoGLEvent.disable GLCapability.cullFace] :=
  rfl

/-- C4: calling frame() with no camera set, or with no primary environment
texture set, hits a failing assertion (a fatal precondition violation) and
produces no draw, rather than silently doing nothing or drawing anyway. -/
theorem frame_missing_precondition_fatal (p : EnvironmentRenderingPass)
    (h : p.camera = none ∨ p.environmentTexture = none) :
    ∃ msg, EnvironmentRenderingPass.frame p = Except.error msg := by
  obtain ⟨t, t2, ty, c⟩ := p
  cases c with
  | none => exact ⟨_, rfl⟩
  | some cam =>
    cases t with
    | none => exact ⟨_, rfl⟩
    | some tex => simp_all

/-- C4 witness: the freshly constructed pass has neither a camera nor a
primary texture, and frame() on it fails fatally. -/
theorem frame_missing_precondition_fatal_witness :
    ((⟨none, none, none, none⟩ : EnvironmentRenderingPass).camera = none ∨
      (⟨none, none, none, none⟩ : EnvironmentRenderingPass).environmentTexture = none) ∧
    ∃ msg, EnvironmentRenderingPass.frame ⟨none, none, none, none⟩ = Except.error msg :=
  ⟨Or.inl rfl,
   frame_missing_precondition_fatal ⟨none, none, none, none⟩ (Or.inl rfl)⟩

/-- C5: frame() with a primary texture whose runtime kind does not match
the selected projection type, or with a missing or non-2D secondary
texture for PolarMap, hits a failing assertion before any draw: a 2D
primary with CubeMap, a cube primary with EquirectangularMap, SphereMap or
PolarMap, and a 2D primary with PolarMap when the secondary is missing or
is a cube texture. An error result carries no GL events, so no draw is
issued. -/
theorem frame_texture_kind_mismatch_fatal (cam : Camera) (i j : Nat) (t2 : Option Texture) :
    (∃ m, EnvironmentRenderingPass.frame
        ⟨some ⟨i, TextureKind.tex2D⟩, t2, some EnvironmentTextureType.CubeMap, some cam⟩ =
      Except.error m) ∧
    (∃ m, EnvironmentRenderingPass.frame
        ⟨some ⟨i, TextureKind.texCube⟩, t2, some EnvironmentTextureType.EquirectangularMap,
          some cam⟩ = Except.error m) ∧
    (∃ m, EnvironmentRenderingPass.frame
        ⟨some ⟨i, TextureKind.texCube⟩, t2, some EnvironmentTextureType.SphereMap,
          some cam⟩ = Except.error m) ∧
    (∃ m, EnvironmentRenderingPass.frame
        ⟨some ⟨i, TextureKind.texCube⟩, t2, some EnvironmentTextureType.PolarMap,
          some cam⟩ = Except.error m) ∧
    (∃ m, EnvironmentRenderingPass.frame
        ⟨some ⟨i, TextureKind.tex2D⟩, none, some EnvironmentTextureType.PolarMap,
          some cam⟩ = Except.error m) ∧
    (∃ m, EnvironmentRenderingPass.frame
        ⟨some ⟨i, TextureKind.tex2D⟩, some ⟨j, TextureKind.texCube⟩,
          some EnvironmentTextureType.PolarMap, some cam⟩ = Except.error m) := by
  refine ⟨⟨_, rfl⟩, ⟨_, rfl⟩, ⟨_, rfl⟩, ?_, ⟨_, rfl⟩, ⟨_, rfl⟩⟩
  cases t2 with
  | none => exact ⟨_, rfl⟩
  | some tex2 => exact ⟨_, rfl⟩

/-- C6: each of the four setters only writes its own field with the
supplied value, leaves every other field of the pass unchanged, performs no
validation and accepts any argument unconditionally. -/
theorem setters_assign_only (p : EnvironmentRenderingPass)
    (ty : EnvironmentTextureType) (t t2 : Texture) (c : Camera) :
    EnvironmentRenderingPass.setEnvironmentTextureType p ty =
      ⟨p.environmentTexture, p.environmentTexture2, some ty, p.camera⟩ ∧
    EnvironmentRenderingPass.setEnvironmentTexture p t =
      ⟨some t, p.environmentTexture2, p.environmenTextureType, p.camera⟩ ∧
    EnvironmentRenderingPass.setEnvironmentTexture2 p t2 =
      ⟨p.environmentTexture, some t2, p.environmenTextureType, p.camera⟩ ∧
    EnvironmentRenderingPass.setCamera p c =
      ⟨p.environmentTexture, p.environmentTexture2, p.environmenTextureType, some c⟩ := by
  obtain ⟨a, b, d, e⟩ := p
  exact ⟨rfl, rfl, rfl, rfl⟩

/-- C7: uninitialize() invokes the uninitialize path of every one of the
four shader programs, the only external resources the spec requires the
pass to release. -/
theorem uninitialize_releases_all_programs :
    EnvironmentRenderingPass.uninitialize =
      [EnvironmentRenderingPass.PassResource.program ProgramId.cubeMap,
       EnvironmentRenderingPass.PassResource.program ProgramId.equiMap,
       EnvironmentRenderingPass.PassResource.program ProgramId.sphereMap,
       EnvironmentRenderingPass.PassResource.program ProgramId.polarMap] ∧
    (∀ q : ProgramId,
      EnvironmentRenderingPass.PassResource.program q ∈
        EnvironmentRenderingPass.uninitialize) := by
  refine ⟨rfl, ?_⟩
  intro q
  cases q <;> decide

/-- C8: the two callbacks registered on the eye-tracking data stream are
total functions of the stream state alone: on every renderer state and
every stream state they return the renderer state unchanged and produce
exactly one log line, so invoking them at any time, in particular before
any frame is drawn, cannot crash and mutates no renderer state. -/
theorem callbacks_log_only (r : EyeTrackingRenderer.RendererState)
    (s : EyeTrackingRenderer.EyeTrackerDataStream) :
    (EyeTrackingRenderer.onDataUpdateCallback r s).1 = r ∧
    (EyeTrackingRenderer.onDataUpdateCallback r s).2 = [s.eyeTrackingData] ∧
    (EyeTrackingRenderer.onStatusUpdateCallback r s).1 = r ∧
    (EyeTrackingRenderer.onStatusUpdateCallback r s).2.length = 1 := by
  obtain ⟨d, m, sv⟩ := s
  cases m <;> exact ⟨rfl, rfl, rfl, rfl⟩

/-- C9: when the texture type field was never set (it stays undefined, as
the constructor does not initialize it), frame() with a camera and any
primary texture fails no texture-kind assertion: the dispatch falls through
to the cube-map program, binds no texture at all, and still issues the
full-screen draw. The primary texture kind and the secondary texture slot
are arbitrary. -/
theorem frame_unset_type_falls_through (cam : Camera) (t : Texture) (t2 : Option Texture) :
    EnvironmentRenderingPass.frame ⟨some t, t2, none, some cam⟩ =
      Except.ok
        [GLEvent.bindProgram ProgramId.cubeMap,
         GLEvent.uniformMatrix4fv ProgramId.cubeMap "u_viewProjectionInverse" false
           cam.viewProjectionInverse,
         GLEvent.bindTriangle, GLEvent.drawTriangle,
         GLEvent.unbindProgram ProgramId.cubeMap] :=
  rfl

/-- C10: uninitialize() releases only the four programs: it never touches
the NDC filling triangle or the two placeholder textures, even though a
fully successful initialize() run does initialize all three of them. -/
theorem uninitialize_leaves_triangle_and_placeholders :
    EnvironmentRenderingPass.uninitialize =
      [EnvironmentRenderingPass.PassResource.program ProgramId.cubeMap,
       EnvironmentRenderingPass.PassResource.program ProgramId.equiMap,
       EnvironmentRenderingPass.PassResource.program ProgramId.sphereMap,
       EnvironmentRenderingPass.PassResource.program ProgramId.polarMap] ∧
    EnvironmentRenderingPass.uninitialize.count
      EnvironmentRenderingPass.PassResource.ndcTriangle = 0 ∧
    EnvironmentRenderingPass.uninitialize.count
      EnvironmentRenderingPass.PassResource.emptyTexture = 0 ∧
    EnvironmentRenderingPass.uninitialize.count
      EnvironmentRenderingPass.PassResource.emptyCubemap = 0 ∧
    allOkInitEvents.count InitEvent.initTriangle = 1 ∧
    allOkInitEvents.count InitEvent.initEmptyTexture = 1 ∧
    allOkInitEvents.count InitEvent.initEmptyCubemap = 1 := by
  refine ⟨rfl, rfl, rfl, rfl, ?_, ?_, ?_⟩ <;> decide

end WebglOperate
